import Mathlib

/-!
Verification of the travel-agent workflow orchestration engine
(`src/workflow.py`) against its natural-language specification.

The workflow is a directed-graph state machine: an entry gate
(`router_travel_evaluator`), an extraction stage (`node_query_analyzer`),
five linearly chained domain/assembly stages
(hotel, weather, attractions, calculator, itinerary) and a summary stage
whose textual output is scanned for a `regenerate:(\w+_agent)` marker that
dynamically re-routes the run.

External collaborators (the LLM agents and service objects) are modelled as
oracles: the run semantics is parametrised by the strings they return or the
failures they raise.  Everything else — field updates, routing decisions,
the marker search, the error propagation — is translated directly from
`src/workflow.py`.
-/

/-- Modelled from the spec: a structured lodging entry with name, nightly
price, rating, review count and a reference link (`HotelInfo` lives in
`models.py`, which is not under `src/`; the field names appear in the
hotel-agent prompt of `src/workflow.py`). -/
structure HotelInfo where
  name : String
  price_per_night : Nat
  review_count : Nat
  rating : Nat
  url : String
deriving DecidableEq, Repr

/-- Modelled from the spec: the trip parameters extracted by the query
analyzer — destination, budget, currency, day count, group size and the
preference fields (`QueryAnalysisResult` lives in `models.py`, which is not
under `src/`; the field names appear in the `__main__` block of
`src/workflow.py`). -/
structure QueryAnalysisResult where
  destination : Option String
  budget : Option Nat
  native_currency : Option String
  days : Option Nat
  group_size : Option Nat
  activity_preferences : Option String
  accommodation_type : Option String
  dietary_restrictions : Option String
  transportation_preferences : Option String
deriving DecidableEq, Repr

/-- Modelled from the spec: the shared state record threaded through every
stage (`WorkflowState` lives in `models.py`, which is not under `src/`; the
fields are exactly the ones read and written by `src/workflow.py`).  Every
stage-owned field starts unset (`none`). -/
structure WorkflowState where
  messages : List String
  destination : Option String
  budget : Option Nat
  native_currency : Option String
  days : Option Nat
  group_size : Option Nat
  activity_preferences : Option String
  accommodation_type : Option String
  dietary_restrictions : Option String
  transportation_preferences : Option String
  hotels : Option (List HotelInfo)
  weather : Option String
  attractions : Option String
  calculator_result : Option String
  itinerary : Option String
  summary : Option String
deriving DecidableEq, Repr

/-- The initial state built in the `__main__` block of `src/workflow.py`:
every field unset except the triggering user message. -/
def initState (msgs : List String) : WorkflowState :=
  { messages := msgs
    destination := none, budget := none, native_currency := none
    days := none, group_size := none
    activity_preferences := none, accommodation_type := none
    dietary_restrictions := none, transportation_preferences := none
    hotels := none, weather := none, attractions := none
    calculator_result := none, itinerary := none, summary := none }

/-- A routing decision: either a named graph node or the `END` sentinel of
the graph library. -/
inductive Target where
  | node : String → Target
  | END : Target
deriving DecidableEq, Repr

/-- The fatal conditions a run can surface.  `invalidClassification` is the
`ValueError` raised by `router_travel_evaluator`; `extractionFailed` is an
exception propagating out of `query_analyzer.analyze`; `adapterRaised` is an
uncaught exception from an agent or service invocation inside a stage
(stage name, message); `unknownNode` is the graph library rejecting a
`Command(goto=...)` to an unregistered node; `routingError` is a router
branch value missing from a conditional-edge map. -/
inductive RunError where
  | invalidClassification : String → RunError
  | extractionFailed : String → RunError
  | adapterRaised : String → String → RunError
  | unknownNode : String → RunError
  | routingError : String → RunError
deriving DecidableEq, Repr

/-- Outcome of a (fuel-bounded) run: a terminal state, a fatal error, or
fuel exhaustion.  Each outcome carries the trace of node names invoked, in
order. -/
inductive RunResult where
  | terminal : WorkflowState → List String → RunResult
  | fatal : RunError → List String → RunResult
  | outOfFuel : List String → RunResult
deriving DecidableEq, Repr

/-- True exactly on the fuel-exhaustion outcome. -/
def RunResult.isStuck : RunResult → Bool
  | .outOfFuel _ => true
  | _ => false

/-- The trace of invoked node names carried by a run outcome. -/
def RunResult.trace : RunResult → List String
  | .terminal _ tr => tr
  | .fatal _ tr => tr
  | .outOfFuel tr => tr

/-- Word characters of the `\w` class, restricted to ASCII as used by the
marker strings of this workflow: letters, digits and underscore. -/
def isWordChar (c : Char) : Bool :=
  c.isAlphanum || c == '_'

/-- Maximal run of word characters at the head of the list. -/
def takeWordRun : List Char → List Char
  | [] => []
  | c :: cs => if isWordChar c then c :: takeWordRun cs else []

/-- The literal part of the regeneration pattern `regenerate:(\w+_agent)`. -/
def regenLit : List Char := "regenerate:".toList

/-- The literal suffix required of the captured group. -/
def agentLit : List Char := "_agent".toList

/-- Greedy capture of `\w+_agent` at the head of a word run `w`: the longest
prefix of `w` consisting of at least one word character followed by the
literal `_agent`, exactly as the backtracking greedy `\w+` of the Python
regex resolves it. -/
def greedyAgentGroup (w : List Char) : Option (List Char) :=
  (List.range (w.length + 1)).reverse.findSome? fun k =>
    if 6 < k ∧ (w.take k).drop (k - 6) = agentLit then some (w.take k) else none

/-- Attempt to match `regenerate:(\w+_agent)` anchored at the head of the
list; returns the captured group. -/
def matchRegenHere (l : List Char) : Option (List Char) :=
  if regenLit.isPrefixOf l then
    greedyAgentGroup (takeWordRun (l.drop regenLit.length))
  else none

/-- Embedding of `re.search(r'regenerate:(\w+_agent)', content)`: try the
anchored match at every position left to right and return the first captured
group. -/
def searchRegen : List Char → Option (List Char)
  | [] => none
  | c :: cs =>
    match matchRegenHere (c :: cs) with
    | some g => some g
    | none => searchRegen cs

/-- Substring test: does `pat` occur contiguously anywhere in the list? -/
def hasSub (pat : List Char) : List Char → Bool
  | [] => pat.isEmpty
  | c :: cs => pat.isPrefixOf (c :: cs) || hasSub pat cs

/-- Embedding of the Python membership test of the lower-cased content
against the literal `final`. -/
def containsFinal (content : List Char) : Bool :=
  hasSub ("final".toList) (content.map Char.toLower)

/-- Behaviour of the external collaborators for one run, as seen at the
stage boundaries of `src/workflow.py`.  Each agent/service invocation either
returns a textual result (`Except.ok`) or raises (`Except.error`); the
`Nat` argument counts previous invocations of that same stage in the run, so
a re-entered stage may observe a different answer.  `gate` is the raw reply
of the travel-evaluator agent.  `parseHotels` models the composition of
`json.loads` with `HotelInfo` validation used by `node_hotel_agent`:
`none` stands for the caught `JSONDecodeError`, `ValidationError` or
`TypeError`. -/
structure Oracles where
  gate : String
  analyzer : Except String QueryAnalysisResult
  parseHotels : String → Option (List HotelInfo)
  hotel : Nat → Except String String
  weather : Nat → Except String String
  attractions : Nat → Except String String
  calculator : Nat → Except String String
  itinerary : Nat → Except String String
  summary : Nat → Except String String

/-- Per-run invocation counters, one per re-enterable stage. -/
structure Counts where
  hotel : Nat
  weather : Nat
  attractions : Nat
  calculator : Nat
  itinerary : Nat
  summary : Nat
deriving DecidableEq, Repr

/-- All counters start at zero. -/
def initCounts : Counts :=
  { hotel := 0, weather := 0, attractions := 0
    calculator := 0, itinerary := 0, summary := 0 }

/-- Increment the counter of the node that just executed. -/
def bump (k : Counts) (node : String) : Counts :=
  if node = "hotel_agent" then { k with hotel := k.hotel + 1 }
  else if node = "weather_agent" then { k with weather := k.weather + 1 }
  else if node = "attractions_agent" then { k with attractions := k.attractions + 1 }
  else if node = "calculator_agent" then { k with calculator := k.calculator + 1 }
  else if node = "itinerary_agent" then { k with itinerary := k.itinerary + 1 }
  else if node = "summary_agent" then { k with summary := k.summary + 1 }
  else k

/-- Embedding of `router_travel_evaluator`: validate the gate reply against
the two literals of `TravelEvaluationResult`; anything else raises
`ValueError` (modelled as `invalidClassification`). -/
def router_travel_evaluator (response : String) : Except RunError String :=
  if response = "TRAVEL" ∨ response = "NOT_TRAVEL" then Except.ok response
  else Except.error (RunError.invalidClassification response)

/-- Embedding of the merge loop of `node_query_analyzer`: every field of the
analysis result is written into the state, overwriting what was there. -/
def mergeAnalysis (s : WorkflowState) (r : QueryAnalysisResult) : WorkflowState :=
  { s with
    destination := r.destination, budget := r.budget
    native_currency := r.native_currency, days := r.days
    group_size := r.group_size
    activity_preferences := r.activity_preferences
    accommodation_type := r.accommodation_type
    dietary_restrictions := r.dietary_restrictions
    transportation_preferences := r.transportation_preferences }

/-- Embedding of the routing decision at the end of `node_summary_agent`:
a regeneration match routes to the captured agent name; otherwise the
`final` branch and the default branch both route to `END`. -/
def summaryRoute (content : List Char) : Target :=
  match searchRegen content with
  | some g => Target.node (String.mk g)
  | none => if containsFinal content then Target.END else Target.END

/-- Embedding of `summary_supervisor_router` (the conditional-edge router
registered on the summary node): same resolution as `summaryRoute`, on the
summary field stored in state. -/
def summary_supervisor_router (content : List Char) : Target :=
  match searchRegen content with
  | some g => Target.node (String.mk g)
  | none => if containsFinal content then Target.END else Target.END

/-- The branch map passed to `add_conditional_edges` for the summary node in
`src/workflow.py`: the three regeneration targets plus the terminal
branch. -/
def summaryPathMap : List (Target × Target) :=
  [ (Target.node "attractions_agent", Target.node "attractions_agent")
  , (Target.node "itinerary_agent", Target.node "itinerary_agent")
  , (Target.node "calculator_agent", Target.node "calculator_agent")
  , (Target.END, Target.END) ]

/-- The legal regeneration target set named by the spec — exactly the
non-terminal keys of `summaryPathMap`. -/
def legalRegenTargets : List String :=
  ["attractions_agent", "itinerary_agent", "calculator_agent"]

/-- Boolean membership in the legal regeneration target set. -/
def inLegalSet (x : String) : Bool :=
  x = "attractions_agent" || x = "itinerary_agent" || x = "calculator_agent"

/-- The raw branch value a routing decision stands for in the graph
library: the node name, or the terminal sentinel string. -/
def branchValue : Target → String
  | Target.node n => n
  | Target.END => "__end__"

/-- Membership of a branch value among the keys of a conditional-edge
path map. -/
def pathMapHas : List (Target × Target) → Target → Bool
  | [], _ => false
  | p :: ps, t => if p.1 = t then true else pathMapHas ps t

/-- The branch computed by the conditional edge registered on the summary
node: `summary_supervisor_router` reads the summary field the node just
wrote (`str(None)` when it is unset, which cannot happen after the node
runs). -/
def summaryBranch (s : WorkflowState) : Target :=
  match s.summary with
  | some c => summary_supervisor_router c.toList
  | none => summary_supervisor_router ("None".toList)

/-- The nodes registered on the graph by `workflow.add_node` in
`src/workflow.py`. -/
def isRegistered (n : String) : Bool :=
  n = "query_analyzer" || n = "hotel_agent" || n = "weather_agent" ||
  n = "attractions_agent" || n = "calculator_agent" ||
  n = "itinerary_agent" || n = "summary_agent"

/-- One stage execution: the node functions of `src/workflow.py`, given the
oracle behaviour and the current invocation counters.  Returns the updated
state and the routing decision of the returned `Command`, or the fatal error
that propagates out of the node. -/
def execNode (O : Oracles) (node : String) (s : WorkflowState) (k : Counts) :
    Except RunError (WorkflowState × Target) :=
  if node = "query_analyzer" then
    match O.analyzer with
    | Except.error e => Except.error (RunError.extractionFailed e)
    | Except.ok r => Except.ok (mergeAnalysis s r, Target.node "hotel_agent")
  else if node = "hotel_agent" then
    match O.hotel k.hotel with
    | Except.error e => Except.error (RunError.adapterRaised "hotel_agent" e)
    | Except.ok raw =>
      match O.parseHotels raw with
      | some hs => Except.ok ({ s with hotels := some hs }, Target.node "weather_agent")
      | none => Except.ok ({ s with hotels := some [] }, Target.node "weather_agent")
  else if node = "weather_agent" then
    match O.weather k.weather with
    | Except.error e => Except.error (RunError.adapterRaised "weather_agent" e)
    | Except.ok c => Except.ok ({ s with weather := some c }, Target.node "attractions_agent")
  else if node = "attractions_agent" then
    match O.attractions k.attractions with
    | Except.error e => Except.error (RunError.adapterRaised "attractions_agent" e)
    | Except.ok c => Except.ok ({ s with attractions := some c }, Target.node "calculator_agent")
  else if node = "calculator_agent" then
    match O.calculator k.calculator with
    | Except.error e => Except.error (RunError.adapterRaised "calculator_agent" e)
    | Except.ok c => Except.ok ({ s with calculator_result := some c }, Target.node "itinerary_agent")
  else if node = "itinerary_agent" then
    match O.itinerary k.itinerary with
    | Except.error e => Except.error (RunError.adapterRaised "itinerary_agent" e)
    | Except.ok c => Except.ok ({ s with itinerary := some c }, Target.node "summary_agent")
  else if node = "summary_agent" then
    match O.summary k.summary with
    | Except.error e => Except.error (RunError.adapterRaised "summary_agent" e)
    | Except.ok c => Except.ok ({ s with summary := some c }, summaryRoute c.toList)
  else Except.error (RunError.unknownNode node)

/-- The executor loop from the current node, bounded by fuel.  After the
summary node executes, the conditional-edge branch registered on it by
`add_conditional_edges` runs `summary_supervisor_router` on the updated
state: a branch value absent from its path map makes the graph library
raise and the run abort.  Otherwise a `Command` goto to a registered node
continues there; `END` terminates; a goto to an unregistered node is
rejected by the graph library. -/
def runFrom (O : Oracles) : Nat → String → WorkflowState → Counts → List String → RunResult
  | 0, _, _, _, tr => RunResult.outOfFuel tr
  | Nat.succ n, node, s, k, tr =>
    match execNode O node s k with
    | Except.error e => RunResult.fatal e (tr ++ [node])
    | Except.ok (s', t) =>
      if node = "summary_agent" ∧ pathMapHas summaryPathMap (summaryBranch s') = false then
        RunResult.fatal (RunError.routingError (branchValue (summaryBranch s')))
          (tr ++ [node])
      else
        match t with
        | Target.END => RunResult.terminal s' (tr ++ [node])
        | Target.node next =>
          if isRegistered next then runFrom O n next s' (bump k node) (tr ++ [node])
          else RunResult.fatal (RunError.unknownNode next) (tr ++ [node])

/-- A whole run: the conditional edge at `START` first calls
`router_travel_evaluator`, whose reply is resolved through the branch map
mapping `TRAVEL` to the query analyzer and `NOT_TRAVEL` to `END`; then the
executor loop runs. -/
def runWorkflow (O : Oracles) (fuel : Nat) (s0 : WorkflowState) : RunResult :=
  match router_travel_evaluator O.gate with
  | Except.error e => RunResult.fatal e []
  | Except.ok resp =>
    if resp = "TRAVEL" then runFrom O fuel "query_analyzer" s0 initCounts []
    else if resp = "NOT_TRAVEL" then RunResult.terminal s0 []
    else RunResult.fatal (RunError.routingError resp) []

/-- True exactly on the terminal outcome. -/
def RunResult.isTerminal : RunResult → Bool
  | .terminal _ _ => true
  | _ => false

/-- The terminal state carried by a terminal outcome. -/
def RunResult.state? : RunResult → Option WorkflowState
  | .terminal s _ => some s
  | _ => none

/-- The node sequence of a run through the full linear chain exactly once. -/
def happyTrace : List String :=
  ["query_analyzer", "hotel_agent", "weather_agent", "attractions_agent",
   "calculator_agent", "itinerary_agent", "summary_agent"]

/-- A concrete analysis result used by witnesses (the Paris demo query of
the `__main__` block). -/
def demoAnalysis : QueryAnalysisResult :=
  { destination := some "Paris", budget := some 1000
    native_currency := some "USD", days := some 3, group_size := none
    activity_preferences := some "art", accommodation_type := none
    dietary_restrictions := none, transportation_preferences := none }

/-- Concrete all-successful oracle behaviour used by witnesses: the gate
says `TRAVEL`, every adapter returns, the hotel output parses (to the empty
list), and the summary carries a `final` marker and no regeneration
marker. -/
def okO : Oracles :=
  { gate := "TRAVEL", analyzer := Except.ok demoAnalysis
    parseHotels := fun r => if r = "[]" then some [] else none
    hotel := fun _ => Except.ok "[]"
    weather := fun _ => Except.ok "sunny"
    attractions := fun _ => Except.ok "Louvre"
    calculator := fun _ => Except.ok "breakdown"
    itinerary := fun _ => Except.ok "day by day"
    summary := fun _ => Except.ok "final plan" }

/-- Like `okO` but the raw hotel output does not parse. -/
def parseFailO : Oracles := { okO with hotel := fun _ => Except.ok "not json" }

/-- Like `okO` but the weather agent invocation raises. -/
def weatherRaiseO : Oracles := { okO with weather := fun _ => Except.error "boom" }

/-- Like `okO` but the first summary carries a regeneration marker naming
the hotel stage, outside the legal regeneration target set; the second
summary is final. -/
def regenHotelO : Oracles :=
  { okO with summary := fun n =>
      if n = 0 then Except.ok "regenerate:hotel_agent" else Except.ok "final" }

/-- Like `okO` but the first summary carries a regeneration marker naming
the attractions stage; the second summary is final. -/
def regenAttrO : Oracles :=
  { okO with summary := fun n =>
      if n = 0 then Except.ok "regenerate:attractions_agent" else Except.ok "final" }

/-- Like `okO` but the summary carries neither a regeneration marker nor a
`final` marker. -/
def noSignalO : Oracles := { okO with summary := fun _ => Except.ok "gibberish" }

/-- Like `okO` but the summary names an unregistered agent. -/
def nosuchO : Oracles :=
  { okO with summary := fun _ => Except.ok "regenerate:nosuch_agent" }

/-- Like `okO` but every summary asks to regenerate the attractions stage:
the regeneration cycle never exits. -/
def cycleO : Oracles :=
  { okO with summary := fun _ => Except.ok "regenerate:attractions_agent" }

/-- Like `okO` but the analyzer raises a parse/validation failure. -/
def analyzerFailO : Oracles := { okO with analyzer := Except.error "bad parse" }

/-- The two states agree on every trip-parameter field. -/
def eqTripParams (a b : WorkflowState) : Prop :=
  a.destination = b.destination ∧ a.budget = b.budget ∧
  a.native_currency = b.native_currency ∧ a.days = b.days ∧
  a.group_size = b.group_size ∧
  a.activity_preferences = b.activity_preferences ∧
  a.accommodation_type = b.accommodation_type ∧
  a.dietary_restrictions = b.dietary_restrictions ∧
  a.transportation_preferences = b.transportation_preferences

/-- Frame of the extraction stage: everything but the trip parameters is
untouched. -/
def framedByAnalyzer (s s' : WorkflowState) : Prop :=
  s'.messages = s.messages ∧ s'.hotels = s.hotels ∧ s'.weather = s.weather ∧
  s'.attractions = s.attractions ∧ s'.calculator_result = s.calculator_result ∧
  s'.itinerary = s.itinerary ∧ s'.summary = s.summary

/-- Frame of a stage owning one result field: everything but that one named
field is untouched.  The owned field is given by its selector name. -/
def framedExcept (own : String) (s s' : WorkflowState) : Prop :=
  s'.messages = s.messages ∧ eqTripParams s' s ∧
  (own = "hotels" ∨ s'.hotels = s.hotels) ∧
  (own = "weather" ∨ s'.weather = s.weather) ∧
  (own = "attractions" ∨ s'.attractions = s.attractions) ∧
  (own = "calculator_result" ∨ s'.calculator_result = s.calculator_result) ∧
  (own = "itinerary" ∨ s'.itinerary = s.itinerary) ∧
  (own = "summary" ∨ s'.summary = s.summary)

/-! Theorems. -/

/-- Unfolding lemma for one executor step. -/
theorem runFrom_step (O : Oracles) (n : Nat) (node : String) (s : WorkflowState)
    (k : Counts) (tr : List String) :
    runFrom O (n + 1) node s k tr =
      match execNode O node s k with
      | Except.error e => RunResult.fatal e (tr ++ [node])
      | Except.ok (s', t) =>
        if node = "summary_agent" ∧ pathMapHas summaryPathMap (summaryBranch s') = false then
          RunResult.fatal (RunError.routingError (branchValue (summaryBranch s')))
            (tr ++ [node])
        else
          match t with
          | Target.END => RunResult.terminal s' (tr ++ [node])
          | Target.node next =>
            if isRegistered next then runFrom O n next s' (bump k node) (tr ++ [node])
            else RunResult.fatal (RunError.unknownNode next) (tr ++ [node]) := rfl

/-- C5: if the gate reply is any value other than the two recognized labels,
the run aborts with the classification-failure error and the trace is empty:
no downstream stage is invoked and no default routing occurs. -/
theorem gate_invalid_label_aborts (O : Oracles) (fuel : Nat) (s0 : WorkflowState)
    (h1 : O.gate ≠ "TRAVEL") (h2 : O.gate ≠ "NOT_TRAVEL") :
    runWorkflow O fuel s0 =
      RunResult.fatal (RunError.invalidClassification O.gate) [] := by
  simp [runWorkflow, router_travel_evaluator, h1, h2]

/-- Witness for C5 at the empty-string reply. -/
theorem gate_invalid_label_aborts_witness :
    runWorkflow { okO with gate := "" } 20 (initState ["hi"]) =
      RunResult.fatal (RunError.invalidClassification "") [] :=
  gate_invalid_label_aborts { okO with gate := "" } 20 (initState ["hi"])
    (by decide) (by decide)

/-- C6: if the gate reply is the out-of-scope label, the run terminates
immediately with the state unchanged and an empty trace: every post-gate
field keeps its initial unset value and no domain stage or adapter is ever
invoked. -/
theorem gate_not_travel_terminates (O : Oracles) (fuel : Nat) (msgs : List String)
    (h : O.gate = "NOT_TRAVEL") :
    runWorkflow O fuel (initState msgs) = RunResult.terminal (initState msgs) [] ∧
    (initState msgs).destination = none ∧ (initState msgs).budget = none ∧
    (initState msgs).days = none ∧ (initState msgs).hotels = none ∧
    (initState msgs).weather = none ∧ (initState msgs).attractions = none ∧
    (initState msgs).calculator_result = none ∧
    (initState msgs).itinerary = none ∧ (initState msgs).summary = none := by
  refine ⟨?_, rfl, rfl, rfl, rfl, rfl, rfl, rfl, rfl, rfl⟩
  simp [runWorkflow, router_travel_evaluator, h]

/-- Witness for C6. -/
theorem gate_not_travel_terminates_witness :
    runWorkflow { okO with gate := "NOT_TRAVEL" } 20 (initState ["hi"]) =
      RunResult.terminal (initState ["hi"]) [] :=
  (gate_not_travel_terminates { okO with gate := "NOT_TRAVEL" } 20 ["hi"] rfl).1

/-- C7: a parse/validation failure raised by the extraction collaborator is
fatal: the run halts with the propagated failure and the trace is exactly
the query-analyzer invocation, so no downstream stage runs with unset
parameters. -/
theorem extraction_failure_fatal (O : Oracles) (fuel : Nat) (s0 : WorkflowState)
    (e : String) (hg : O.gate = "TRAVEL") (ha : O.analyzer = Except.error e)
    (hf : 1 ≤ fuel) :
    runWorkflow O fuel s0 =
      RunResult.fatal (RunError.extractionFailed e) ["query_analyzer"] := by
  obtain ⟨m, rfl⟩ : ∃ m, fuel = m + 1 :=
    ⟨fuel - 1, (Nat.succ_pred_eq_of_pos hf).symm⟩
  simp [runWorkflow, router_travel_evaluator, hg, runFrom_step, execNode, ha]

/-- Witness for C7. -/
theorem extraction_failure_fatal_witness :
    runWorkflow analyzerFailO 20 (initState ["hi"]) =
      RunResult.fatal (RunError.extractionFailed "bad parse") ["query_analyzer"] :=
  extraction_failure_fatal analyzerFailO 20 (initState ["hi"]) "bad parse"
    rfl rfl (by decide)

/-- C10: when the raw hotel output fails to parse, the stage writes the
empty list into the hotels field, leaves every other field of the state
unchanged, and routes to the weather stage — the same target as on the
successful-parse path, which writes the parsed list instead. -/
theorem hotel_parse_failure_frame (O : Oracles) (s : WorkflowState) (k : Counts)
    (raw : String) (hraw : O.hotel k.hotel = Except.ok raw) :
    (O.parseHotels raw = none →
      execNode O "hotel_agent" s k =
        Except.ok ({ s with hotels := some [] }, Target.node "weather_agent")) ∧
    (∀ hs, O.parseHotels raw = some hs →
      execNode O "hotel_agent" s k =
        Except.ok ({ s with hotels := some hs }, Target.node "weather_agent")) := by
  constructor
  · intro hp
    simp [execNode, hraw, hp]
  · intro hs hp
    simp [execNode, hraw, hp]

/-- Witness for C10. -/
theorem hotel_parse_failure_frame_witness :
    execNode parseFailO "hotel_agent" (initState ["hi"]) initCounts =
      Except.ok ({ initState ["hi"] with hotels := some [] },
        Target.node "weather_agent") :=
  (hotel_parse_failure_frame parseFailO (initState ["hi"]) initCounts
    "not json" rfl).1 rfl

/-- C9: single-writer invariant — on every successful stage execution, the
extraction stage changes only the trip-parameter fields and every other
stage changes only its one owned result field; no stage mutates a field
owned by another stage, also when re-entered. -/
theorem single_writer_frames (O : Oracles) (s : WorkflowState) (k : Counts) :
    (∀ s' t, execNode O "query_analyzer" s k = Except.ok (s', t) →
      framedByAnalyzer s s') ∧
    (∀ s' t, execNode O "hotel_agent" s k = Except.ok (s', t) →
      framedExcept "hotels" s s') ∧
    (∀ s' t, execNode O "weather_agent" s k = Except.ok (s', t) →
      framedExcept "weather" s s') ∧
    (∀ s' t, execNode O "attractions_agent" s k = Except.ok (s', t) →
      framedExcept "attractions" s s') ∧
    (∀ s' t, execNode O "calculator_agent" s k = Except.ok (s', t) →
      framedExcept "calculator_result" s s') ∧
    (∀ s' t, execNode O "itinerary_agent" s k = Except.ok (s', t) →
      framedExcept "itinerary" s s') ∧
    (∀ s' t, execNode O "summary_agent" s k = Except.ok (s', t) →
      framedExcept "summary" s s') := by
  refine ⟨?_, ?_, ?_, ?_, ?_, ?_, ?_⟩
  · intro s' t h
    cases ha : O.analyzer with
    | error e => simp [execNode, ha] at h
    | ok r =>
      simp [execNode, ha] at h
      obtain ⟨h1, -⟩ := h
      subst h1
      simp [framedByAnalyzer, mergeAnalysis]
  · intro s' t h
    cases hh : O.hotel k.hotel with
    | error e => simp [execNode, hh] at h
    | ok raw =>
      cases hp : O.parseHotels raw with
      | none =>
        simp [execNode, hh, hp] at h
        obtain ⟨h1, -⟩ := h
        subst h1
        simp [framedExcept, eqTripParams]
      | some hs =>
        simp [execNode, hh, hp] at h
        obtain ⟨h1, -⟩ := h
        subst h1
        simp [framedExcept, eqTripParams]
  · intro s' t h
    cases hw : O.weather k.weather with
    | error e => simp [execNode, hw] at h
    | ok c =>
      simp [execNode, hw] at h
      obtain ⟨h1, -⟩ := h
      subst h1
      simp [framedExcept, eqTripParams]
  · intro s' t h
    cases hx : O.attractions k.attractions with
    | error e => simp [execNode, hx] at h
    | ok c =>
      simp [execNode, hx] at h
      obtain ⟨h1, -⟩ := h
      subst h1
      simp [framedExcept, eqTripParams]
  · intro s' t h
    cases hc : O.calculator k.calculator with
    | error e => simp [execNode, hc] at h
    | ok c =>
      simp [execNode, hc] at h
      obtain ⟨h1, -⟩ := h
      subst h1
      simp [framedExcept, eqTripParams]
  · intro s' t h
    cases hi : O.itinerary k.itinerary with
    | error e => simp [execNode, hi] at h
    | ok c =>
      simp [execNode, hi] at h
      obtain ⟨h1, -⟩ := h
      subst h1
      simp [framedExcept, eqTripParams]
  · intro s' t h
    cases hs : O.summary k.summary with
    | error e => simp [execNode, hs] at h
    | ok c =>
      simp [execNode, hs] at h
      obtain ⟨h1, -⟩ := h
      subst h1
      simp [framedExcept, eqTripParams]

/-- Witness for C9 at a concrete hotel-stage execution. -/
theorem single_writer_frames_witness :
    framedExcept "hotels" (initState ["hi"])
      { initState ["hi"] with hotels := some [] } :=
  (single_writer_frames parseFailO (initState ["hi"]) initCounts).2.1
    { initState ["hi"] with hotels := some [] }
    (Target.node "weather_agent") rfl

/-- C4: the summary resolution order — a regeneration marker routes to the
named stage (in particular, a marker naming the attractions stage makes the
attractions stage the next one executed); otherwise a `final` marker
terminates; otherwise the run defaults to terminal, so an absent or
unrecognized signal is not an error. -/
theorem summary_resolution_order :
    (∀ (O : Oracles) (s : WorkflowState) (k : Counts) (c : String) (g : List Char),
        O.summary k.summary = Except.ok c → searchRegen c.toList = some g →
        execNode O "summary_agent" s k =
          Except.ok ({ s with summary := some c }, Target.node (String.mk g))) ∧
    (∀ (O : Oracles) (s : WorkflowState) (k : Counts) (c : String),
        O.summary k.summary = Except.ok c → searchRegen c.toList = none →
        execNode O "summary_agent" s k =
          Except.ok ({ s with summary := some c }, Target.END)) ∧
    searchRegen ("regenerate:attractions_agent".toList) =
      some ("attractions_agent".toList) ∧
    (runWorkflow regenAttrO 20 (initState ["hi"])).trace =
      happyTrace ++ ["attractions_agent", "calculator_agent",
                     "itinerary_agent", "summary_agent"] ∧
    (runWorkflow okO 20 (initState ["hi"])).isTerminal = true ∧
    (runWorkflow noSignalO 20 (initState ["hi"])).isTerminal = true := by
  refine ⟨?_, ?_, rfl, rfl, rfl, rfl⟩
  · intro O s k c g h1 h2
    simp only [String.toList] at h2
    simp [execNode, h1, summaryRoute, h2]
  · intro O s k c h1 h2
    simp only [String.toList] at h2
    simp [execNode, h1, summaryRoute, h2]

/-- Witness for C4 at a concrete marker and a concrete markerless text. -/
theorem summary_resolution_order_witness :
    execNode regenAttrO "summary_agent" (initState ["hi"]) initCounts =
      Except.ok ({ initState ["hi"] with
                    summary := some "regenerate:attractions_agent" },
        Target.node "attractions_agent") ∧
    execNode noSignalO "summary_agent" (initState ["hi"]) initCounts =
      Except.ok ({ initState ["hi"] with summary := some "gibberish" },
        Target.END) :=
  ⟨summary_resolution_order.1 regenAttrO (initState ["hi"]) initCounts
      "regenerate:attractions_agent" ("attractions_agent".toList) rfl rfl,
   summary_resolution_order.2.1 noSignalO (initState ["hi"]) initCounts
      "gibberish" rfl rfl⟩

/-- Counterexample for C2: a raised failure of the weather adapter is not
absorbed — the run aborts fatally right at the weather stage instead of
writing a safe default and reaching a terminal state. -/
theorem domain_adapter_raise_cex :
    runWorkflow weatherRaiseO 20 (initState ["hi"]) =
      RunResult.fatal (RunError.adapterRaised "weather_agent" "boom")
        ["query_analyzer", "hotel_agent", "weather_agent"] := rfl

/-- C2 amended: only the lodging stage is fail-soft, and only against parse
failures of a returned result — it writes the empty list and still advances,
and such a run still reaches a terminal state; the other domain stages store
the raw text without a parse step, and a raised adapter failure at any
domain stage propagates and aborts the run fatally. -/
theorem domain_failsoft_only_hotel_parse :
    (∀ (O : Oracles) (s : WorkflowState) (k : Counts) (raw : String),
        O.hotel k.hotel = Except.ok raw → O.parseHotels raw = none →
        execNode O "hotel_agent" s k =
          Except.ok ({ s with hotels := some [] }, Target.node "weather_agent")) ∧
    (runWorkflow parseFailO 20 (initState ["hi"])).isTerminal = true ∧
    (runWorkflow parseFailO 20 (initState ["hi"])).state?.map
      WorkflowState.hotels = some (some []) ∧
    (∀ (O : Oracles) (s : WorkflowState) (k : Counts) (e : String),
        O.hotel k.hotel = Except.error e →
        execNode O "hotel_agent" s k =
          Except.error (RunError.adapterRaised "hotel_agent" e)) ∧
    (∀ (O : Oracles) (s : WorkflowState) (k : Counts) (e : String),
        O.weather k.weather = Except.error e →
        execNode O "weather_agent" s k =
          Except.error (RunError.adapterRaised "weather_agent" e)) ∧
    (∀ (O : Oracles) (s : WorkflowState) (k : Counts) (e : String),
        O.attractions k.attractions = Except.error e →
        execNode O "attractions_agent" s k =
          Except.error (RunError.adapterRaised "attractions_agent" e)) ∧
    (∀ (O : Oracles) (s : WorkflowState) (k : Counts) (e : String),
        O.calculator k.calculator = Except.error e →
        execNode O "calculator_agent" s k =
          Except.error (RunError.adapterRaised "calculator_agent" e)) := by
  refine ⟨?_, rfl, rfl, ?_, ?_, ?_, ?_⟩
  · intro O s k raw h1 h2
    simp [execNode, h1, h2]
  · intro O s k e h
    simp [execNode, h]
  · intro O s k e h
    simp [execNode, h]
  · intro O s k e h
    simp [execNode, h]
  · intro O s k e h
    simp [execNode, h]

/-- Witness for the C2 amendment at concrete inputs. -/
theorem domain_failsoft_only_hotel_parse_witness :
    execNode parseFailO "hotel_agent" (initState ["hi"]) { initCounts with hotel := 1 } =
      Except.ok ({ initState ["hi"] with hotels := some [] },
        Target.node "weather_agent") ∧
    execNode weatherRaiseO "weather_agent" (initState ["hi"]) initCounts =
      Except.error (RunError.adapterRaised "weather_agent" "boom") :=
  ⟨domain_failsoft_only_hotel_parse.1 parseFailO (initState ["hi"])
      { initCounts with hotel := 1 } "not json" rfl rfl,
   domain_failsoft_only_hotel_parse.2.2.2.2.1 weatherRaiseO (initState ["hi"])
      initCounts "boom" rfl⟩

/-- Helper: the conditional-edge branch accepts a node-valued branch
exactly when the name is in the legal regeneration target set. -/
theorem pathMapHas_node (x : String) :
    pathMapHas summaryPathMap (Target.node x) = inLegalSet x := by
  by_cases h1 : x = "attractions_agent"
  · subst h1; rfl
  by_cases h2 : x = "itinerary_agent"
  · subst h2; rfl
  by_cases h3 : x = "calculator_agent"
  · subst h3; rfl
  simp [pathMapHas, summaryPathMap, inLegalSet, h1, h2, h3,
        Ne.symm h1, Ne.symm h2, Ne.symm h3]

/-- C3: a regeneration marker causes re-entry of the named stage exactly
when that stage is in the legal regeneration target set (the non-terminal
keys of the summary branch map): a legal target is executed next, while a
marker naming any stage outside the set — the hotel stage, or an
unregistered name — makes the conditional-edge branch fail its path-map
lookup and the run aborts at the summary step, so the named stage is never
re-entered. -/
theorem regen_legal_target_gate :
    (∀ (O : Oracles) (n : Nat) (s : WorkflowState) (k : Counts)
        (tr : List String) (c : String) (g : List Char),
        O.summary k.summary = Except.ok c → searchRegen c.toList = some g →
        inLegalSet (String.mk g) = true →
        runFrom O (n + 1) "summary_agent" s k tr =
          runFrom O n (String.mk g) { s with summary := some c }
            (bump k "summary_agent") (tr ++ ["summary_agent"])) ∧
    (∀ (O : Oracles) (n : Nat) (s : WorkflowState) (k : Counts)
        (tr : List String) (c : String) (g : List Char),
        O.summary k.summary = Except.ok c → searchRegen c.toList = some g →
        inLegalSet (String.mk g) = false →
        runFrom O (n + 1) "summary_agent" s k tr =
          RunResult.fatal (RunError.routingError (String.mk g))
            (tr ++ ["summary_agent"])) ∧
    runWorkflow regenHotelO 20 (initState ["hi"]) =
      RunResult.fatal (RunError.routingError "hotel_agent") happyTrace ∧
    runWorkflow nosuchO 20 (initState ["hi"]) =
      RunResult.fatal (RunError.routingError "nosuch_agent") happyTrace ∧
    (runWorkflow regenAttrO 20 (initState ["hi"])).trace =
      happyTrace ++ ["attractions_agent", "calculator_agent",
                     "itinerary_agent", "summary_agent"] ∧
    summaryPathMap.map Prod.fst = legalRegenTargets.map Target.node ++ [Target.END] := by
  refine ⟨?_, ?_, rfl, rfl, rfl, rfl⟩
  · intro O n s k tr c g h1 h2 h3
    simp only [String.toList] at h2
    simp only [inLegalSet, Bool.or_eq_true, decide_eq_true_eq] at h3
    rcases h3 with (h | h) | h
    · have hg : g = "attractions_agent".data := congrArg String.data h
      subst hg
      rw [runFrom_step]
      simp [execNode, h1, summaryRoute, summaryBranch, summary_supervisor_router,
            pathMapHas, summaryPathMap, isRegistered, String.toList, h2]
    · have hg : g = "itinerary_agent".data := congrArg String.data h
      subst hg
      rw [runFrom_step]
      simp [execNode, h1, summaryRoute, summaryBranch, summary_supervisor_router,
            pathMapHas, summaryPathMap, isRegistered, String.toList, h2]
    · have hg : g = "calculator_agent".data := congrArg String.data h
      subst hg
      rw [runFrom_step]
      simp [execNode, h1, summaryRoute, summaryBranch, summary_supervisor_router,
            pathMapHas, summaryPathMap, isRegistered, String.toList, h2]
  · intro O n s k tr c g h1 h2 h3
    simp only [String.toList] at h2
    rw [runFrom_step]
    simp [execNode, h1, summaryRoute, summaryBranch, summary_supervisor_router,
          pathMapHas_node, branchValue, String.toList, h2, h3]

/-- Witness for C3: the legal attractions target is executed next; the
out-of-set hotel target aborts with a routing error at the summary step. -/
theorem regen_legal_target_gate_witness :
    runFrom regenAttrO 1 "summary_agent" (initState ["hi"]) initCounts [] =
      runFrom regenAttrO 0 "attractions_agent"
        { initState ["hi"] with summary := some "regenerate:attractions_agent" }
        (bump initCounts "summary_agent") ["summary_agent"] ∧
    runFrom regenHotelO 1 "summary_agent" (initState ["hi"]) initCounts [] =
      RunResult.fatal (RunError.routingError "hotel_agent") ["summary_agent"] :=
  ⟨regen_legal_target_gate.1 regenAttrO 0 (initState ["hi"]) initCounts []
      "regenerate:attractions_agent" ("attractions_agent".toList) rfl rfl rfl,
   regen_legal_target_gate.2.1 regenHotelO 0 (initState ["hi"]) initCounts []
      "regenerate:hotel_agent" ("hotel_agent".toList) rfl rfl rfl⟩

/-- From any registered node, the executor under `cycleO` never leaves the
graph: every stage succeeds and the summary always routes back to the
attractions stage, so every fuel bound is exhausted. -/
theorem cycleO_never_terminal (n : Nat) :
    ∀ (node : String) (s : WorkflowState) (k : Counts) (tr : List String),
      isRegistered node = true → (runFrom cycleO n node s k tr).isStuck = true := by
  induction n with
  | zero => intro node s k tr _; rfl
  | succ m ih =>
    intro node s k tr h
    simp only [isRegistered, Bool.or_eq_true, decide_eq_true_eq] at h
    rcases h with ((((((rfl | rfl) | rfl) | rfl) | rfl) | rfl) | rfl)
    · exact ih "hotel_agent" _ _ _ rfl
    · exact ih "weather_agent" _ _ _ rfl
    · exact ih "attractions_agent" _ _ _ rfl
    · exact ih "calculator_agent" _ _ _ rfl
    · exact ih "itinerary_agent" _ _ _ rfl
    · exact ih "summary_agent" _ _ _ rfl
    · exact ih "attractions_agent" _ _ _ rfl

/-- C1: the code has no cycle guard — with a summary stage that always
signals regeneration of the attractions stage, the run exhausts every fuel
bound: it never terminates, never surfaces any error condition, and in
particular never stops after a configured bound of re-entries.  The spec
names this missing safeguard `CycleLimitExceeded`; no such condition exists
anywhere in the routing of `src/workflow.py`. -/
theorem cycle_limit_missing (n : Nat) :
    (runWorkflow cycleO n (initState ["hi"])).isStuck = true :=
  cycleO_never_terminal n "query_analyzer" (initState ["hi"]) initCounts [] rfl

/-- C8: a run whose gate answers `TRAVEL`, whose extraction and domain
adapters all return, and whose first summary carries no regeneration
marker, invokes the stages exactly once each in the fixed linear order —
query analyzer, hotel, weather, attractions, calculator, itinerary,
summary — and then terminates. -/
theorem happy_path_linear_order (O : Oracles) (r : QueryAnalysisResult)
    (h w a c i sm : String) (msgs : List String) (fuel : Nat)
    (hg : O.gate = "TRAVEL") (han : O.analyzer = Except.ok r)
    (hh : O.hotel 0 = Except.ok h) (hw : O.weather 0 = Except.ok w)
    (hat : O.attractions 0 = Except.ok a) (hc : O.calculator 0 = Except.ok c)
    (hi : O.itinerary 0 = Except.ok i) (hs : O.summary 0 = Except.ok sm)
    (hnr : searchRegen sm.toList = none) (hf : 7 ≤ fuel) :
    (runWorkflow O fuel (initState msgs)).trace = happyTrace ∧
    (runWorkflow O fuel (initState msgs)).isTerminal = true := by
  obtain ⟨m, rfl⟩ : ∃ m, fuel = m + 7 := ⟨fuel - 7, by omega⟩
  have e7 : m + 7 = ((((((m + 1) + 1) + 1) + 1) + 1) + 1) + 1 := rfl
  simp only [String.toList] at hnr
  rcases hp : O.parseHotels h with _ | hl <;>
    constructor <;>
    simp [runWorkflow, router_travel_evaluator, hg, e7, runFrom_step, execNode,
          han, hh, hw, hat, hc, hi, hs, hp, hnr, summaryRoute, bump, initCounts,
          isRegistered, happyTrace, RunResult.trace, RunResult.isTerminal,
          summaryBranch, summary_supervisor_router, pathMapHas, summaryPathMap,
          branchValue, String.toList]

/-- Witness for C8 with all-successful concrete oracles. -/
theorem happy_path_linear_order_witness :
    (runWorkflow okO 20 (initState ["hi"])).trace = happyTrace ∧
    (runWorkflow okO 20 (initState ["hi"])).isTerminal = true :=
  happy_path_linear_order okO demoAnalysis "[]" "sunny" "Louvre" "breakdown"
    "day by day" "final plan" ["hi"] 20 rfl rfl rfl rfl rfl rfl rfl rfl rfl
    (by decide)
